import Mathlib

/-!
# LinkUp rendezvous server: registry, request handler, heartbeat sweep, persistence

A shallow embedding of `LinkUp_Server.cpp`.

* `std::string` is `String` (a list of characters; `size()` is the length of that list).
* `chrono::steady_clock::time_point` and durations are `Int` nanosecond ticks; the value
  returned by `chrono::steady_clock::now()` is an explicit argument `now`. A stored
  heartbeat is the epoch or an earlier reading of the same clock, so `now - lastHeartbeat`
  does not overflow and no wrap-around is modelled.
* `unordered_map<string, ClientInfo>` is an association list with at most one entry per
  key; the order of the list stands for the (unspecified) iteration order of the map.
* the file `client_db.txt` is explicit state: its contents as one `String`, exactly the
  characters written (opening, reading and writing the file are taken to succeed).
* `send` returns the bytes put on the wire; `recv` is the `request` argument.
-/

namespace LinkUp

/-! ## Data model -/

/-- Credentials and connection info of one client (`struct ClientInfo`). -/
structure ClientInfo where
  username : String
  password : String
  ip_port : String
  lastHeartbeat : Int
  deriving DecidableEq, Repr

/-- The in-memory database `clientDB`: key, record pairs as the map iterates them. -/
abbrev ClientDB := List (String × ClientInfo)

/-- Application code `APP_CODE`. -/
def APP_CODE : String := "SECRET_APP_123"

/-- Liveness timeout `HEARTBEAT_TIMEOUT = chrono::seconds(30)` in nanosecond ticks. -/
def HEARTBEAT_TIMEOUT : Int := 30 * 1000000000

/-- Lookup `clientDB.find(key)`: `none` stands for `clientDB.end()`. -/
def ClientDB.find : ClientDB → String → Option ClientInfo
  | [], _ => none
  | (k, v) :: rest, key => if k = key then some v else ClientDB.find rest key

/-- Membership count `clientDB.count(key)`: 0 or 1. -/
def ClientDB.count (db : ClientDB) (key : String) : Nat :=
  match db.find key with
  | some _ => 1
  | none => 0

/-- Assignment `clientDB[key] = value`: overwrite the mapped value, or insert a new entry. -/
def ClientDB.assign : ClientDB → String → ClientInfo → ClientDB
  | [], key, value => [(key, value)]
  | (k, v) :: rest, key, value =>
    if k = key then (k, value) :: rest else (k, v) :: ClientDB.assign rest key value

/-- Write through an iterator obtained from `find`: `it->second = f (it->second)`. -/
def ClientDB.modify : ClientDB → String → (ClientInfo → ClientInfo) → ClientDB
  | [], _, _ => []
  | (k, v) :: rest, key, f =>
    if k = key then (k, f v) :: rest else (k, v) :: ClientDB.modify rest key f

/-- Keys of the map are pairwise distinct (what `unordered_map` guarantees). -/
def ClientDB.WF (db : ClientDB) : Prop := (db.map Prod.fst).Nodup

instance (db : ClientDB) : Decidable db.WF :=
  inferInstanceAs (Decidable (db.map Prod.fst).Nodup)

/-- Process state: the in-memory map and the contents of the file `DB_FILE`. -/
structure Server where
  clientDB : ClientDB
  dbFile : String
  deriving DecidableEq, Repr

/-! ## splitString -/

/-- Loop of `splitString`: `token` holds the characters `getline` has read so far for the
current token. A delimiter ends the token (it is pushed, even when empty); at the end of
the input a non-empty token is pushed, while a `getline` that meets the end of input
without reading a character fails and ends the loop. -/
def splitString.loop (delimiter : Char) : List Char → List Char → List String
  | [], [] => []
  | [], c :: token => [String.mk (c :: token)]
  | c :: input, token =>
    if c = delimiter then String.mk token :: splitString.loop delimiter input []
    else splitString.loop delimiter input (token ++ [c])

/-- Split a string by delimiter: `splitString(input, delimiter)`. -/
def splitString (input : String) (delimiter : Char) : List String :=
  splitString.loop delimiter input.data []

/-! ## Persistence -/

/-- One line of the snapshot: `username|password|ip_port\n`. -/
def saveLine (info : ClientInfo) : String :=
  info.username ++ "|" ++ info.password ++ "|" ++ info.ip_port ++ "\n"

/-- Text written by `saveClientDB`: the file is truncated and one line per entry is
written from the stored record (not from the key). -/
def saveClientDB (db : ClientDB) : String :=
  db.foldl (fun file entry => file ++ saveLine entry.2) ""

/-- Body of the read loop of `loadClientDB` for one line: lines that do not split into
exactly three fields are skipped; `lastHeartbeat` is value-initialised (the clock epoch). -/
def loadLine (db : ClientDB) (line : String) : ClientDB :=
  match splitString line '|' with
  | [p0, p1, p2] => db.assign p0 ⟨p0, p1, p2, 0⟩
  | _ => db

/-- Read loop of `loadClientDB`: `std::getline(dbFile, line)` yields the lines exactly as
`splitString` with delimiter `'\n'` yields tokens. -/
def loadClientDB (db : ClientDB) (file : String) : ClientDB :=
  (splitString file '\n').foldl loadLine db

/-! ## Request handler -/

/-- Bytes sent by `send(clientSocket, buf, len, 0)`: the first `len` bytes of `buf`. -/
def send (buf : String) (len : Nat) : String := String.mk (buf.data.take len)

/-- Origin check done for `PULS` and `SRCH`:
`itO == clientDB.end() || itO->second.ip_port == "null"`. -/
def notOnline (db : ClientDB) (originUser : String) : Bool :=
  match db.find originUser with
  | none => true
  | some info => info.ip_port == "null"

/-- Action dispatch of `handleClient` (the part run under `dbMutex`): the new state and the
`response` string. -/
def dispatch (s : Server) (now : Int) (parts : List String) (action originUser : String) :
    Server × String :=
  if action = "REG" then
    if parts.length < 5 then (s, "ERROR|Invalid format")
    else
      let username := parts.getD 2 ""
      let password := parts.getD 3 ""
      let ip_port := parts.getD 4 ""
      if s.clientDB.count username ≠ 0 then (s, "ERROR|Username exists")
      else
        let db := s.clientDB.assign username ⟨username, password, ip_port, now⟩
        (⟨db, saveClientDB db⟩, "SUCCESS|Registration successful")
  else if action = "LOG" then
    if parts.length < 5 then (s, "ERROR|Invalid format")
    else
      let username := parts.getD 2 ""
      let password := parts.getD 3 ""
      let ip_port := parts.getD 4 ""
      match s.clientDB.find username with
      | some info =>
        if info.password = password then
          let db := s.clientDB.modify username
            (fun i => { i with ip_port := ip_port, lastHeartbeat := now })
          (⟨db, saveClientDB db⟩, "SUCCESS|Login successful")
        else (s, "ERROR|Invalid credentials")
      | none => (s, "ERROR|Invalid credentials")
  else if action = "PULS" then
    let db := s.clientDB.modify originUser (fun i => { i with lastHeartbeat := now })
    (⟨db, s.dbFile⟩, "SUCCESS|Pulse received")
  else if action = "SRCH" then
    if parts.length < 4 then (s, "ERROR|Invalid format")
    else
      let target := parts.getD 3 ""
      match s.clientDB.find target with
      | some info =>
        if info.ip_port ≠ "null" then (s, "SUCCESS|" ++ info.ip_port)
        else (s, "ERROR|User offline")
      | none => (s, "ERROR|User not found")
  else if action = "DISC" then
    match s.clientDB.find originUser with
    | some _ =>
      let db := s.clientDB.modify originUser (fun i => { i with ip_port := "null" })
      (⟨db, s.dbFile⟩, "SUCCESS|Disconnected successfully")
    | none => (s, "ERROR|User not found")
  else (s, "ERROR|Invalid action")

/-- Request handler `handleClient`: `request` is what `recv` returned (empty when
`bytesReceived <= 0`); the result is the new state and the bytes sent before the socket is
closed (`none` when nothing is sent). -/
def handleClient (s : Server) (now : Int) (request : String) : Server × Option String :=
  if request.length = 0 then (s, none)
  else
    let parts := splitString request '|'
    if parts.length < 2 then (s, some (send "ERROR|Invalid format" 20))
    else
      let code := parts.getD 0 ""
      let action := parts.getD 1 ""
      if code ≠ APP_CODE then (s, some (send "ERROR|Invalid application code" 29))
      else
        let originUser := if parts.length ≥ 3 then parts.getD 2 "" else ""
        if (action = "PULS" ∨ action = "SRCH") ∧ notOnline s.clientDB originUser = true then
          (s, some (send "ERROR|User not online" 21))
        else
          let r := dispatch s now parts action originUser
          (r.1, some (send r.2 r.2.length))

/-! ## Heartbeat monitor -/

/-- Body of the monitor's `for (auto& p : clientDB)` loop for one entry. -/
def sweepEntry (timeout now : Int) (p : String × ClientInfo) : String × ClientInfo :=
  if p.2.ip_port ≠ "null" ∧ now - p.2.lastHeartbeat > timeout then
    (p.1, { p.2 with ip_port := "null" })
  else p

/-- One pass of the monitor loop over the whole map. -/
def sweep (timeout now : Int) (db : ClientDB) : ClientDB :=
  db.map (sweepEntry timeout now)

/-- One tick of the heartbeat monitor thread at clock value `now`; nothing is written to
the file. -/
def heartbeatTick (s : Server) (now : Int) : Server :=
  ⟨sweep HEARTBEAT_TIMEOUT now s.clientDB, s.dbFile⟩

/-! ## Auxiliary definitions for the statements and proofs -/

/-- A small registry with two online clients and the snapshot file that matches it. -/
def demoServer : Server :=
  ⟨[("alice", ⟨"alice", "pw1", "1.2.3.4:9", 0⟩), ("bob", ⟨"bob", "pw2", "5.6.7.8:9", 0⟩)],
    "alice|pw1|1.2.3.4:9\nbob|pw2|5.6.7.8:9\n"⟩

/-- The string has no field delimiter and no line break. -/
def noSeparator (str : String) : Prop := '|' ∉ str.data ∧ '\n' ∉ str.data

instance (str : String) : Decidable (noSeparator str) :=
  inferInstanceAs (Decidable ('|' ∉ str.data ∧ '\n' ∉ str.data))

/-- Characters of one snapshot line without its line break. -/
def lineData (info : ClientInfo) : List Char :=
  info.username.data ++ '|' :: (info.password.data ++ '|' :: info.ip_port.data)

/-- Characters of the whole snapshot, entry by entry. -/
def fileData : ClientDB → List Char
  | [] => []
  | e :: rest => lineData e.2 ++ '\n' :: fileData rest

/-- What `loadClientDB` rebuilds from a saved entry: the heartbeat is not persisted. -/
def reloaded (e : String × ClientInfo) : String × ClientInfo :=
  (e.2.username, ⟨e.2.username, e.2.password, e.2.ip_port, 0⟩)

/-! ## Basic facts about the embedding -/

theorem splitString_loop_nonempty (d : Char) (input token : List Char)
    (h : splitString.loop d input token = []) : input = [] ∧ token = [] := by
  induction input generalizing token with
  | nil =>
    cases token with
    | nil => exact ⟨rfl, rfl⟩
    | cons c t => simp [splitString.loop] at h
  | cons c rest ih =>
    exfalso
    by_cases hc : c = d
    · simp [splitString.loop, hc] at h
    · rw [splitString.loop, if_neg hc] at h
      have h2 := (ih _ h).2
      simp at h2

theorem request_length_of_parts {request : String} {d : Char} {p : String} {ps : List String}
    (h : splitString request d = p :: ps) : request.length ≠ 0 := by
  intro h0
  have hd : request.data = [] := List.length_eq_zero.mp h0
  simp [splitString, hd, splitString.loop] at h

theorem send_all (r : String) : send r r.length = r := by
  cases r with
  | mk data => simp [send, String.length]

theorem handleClient_of_parts (s : Server) (now : Int) (request code action : String)
    (rest : List String) (h : splitString request '|' = code :: action :: rest) :
    handleClient s now request =
      if code ≠ APP_CODE then (s, some (send "ERROR|Invalid application code" 29))
      else if (action = "PULS" ∨ action = "SRCH") ∧
          notOnline s.clientDB (rest.headD "") = true then
        (s, some "ERROR|User not online")
      else
        ((dispatch s now (code :: action :: rest) action (rest.headD "")).1,
          some (dispatch s now (code :: action :: rest) action (rest.headD "")).2) := by
  have hlen := request_length_of_parts h
  have horigin : (if (code :: action :: rest).length ≥ 3
      then (code :: action :: rest).getD 2 "" else "") = rest.headD "" := by
    cases rest <;> simp
  have hsend : send "ERROR|User not online" 21 = "ERROR|User not online" := by decide
  unfold handleClient
  simp only [h, if_neg hlen, horigin, send_all, hsend]
  simp

theorem handleClient_srch (s : Server) (now : Int) (request : String) (rest : List String)
    (h : splitString request '|' = APP_CODE :: "SRCH" :: rest) :
    handleClient s now request =
      if notOnline s.clientDB (rest.headD "") = true then (s, some "ERROR|User not online")
      else
        ((dispatch s now (APP_CODE :: "SRCH" :: rest) "SRCH" (rest.headD "")).1,
          some (dispatch s now (APP_CODE :: "SRCH" :: rest) "SRCH" (rest.headD "")).2) := by
  have hact : ("SRCH" = "PULS" ∨ "SRCH" = "SRCH") := Or.inr rfl
  have hcode : ¬ (APP_CODE ≠ APP_CODE) := fun h => h rfl
  rw [handleClient_of_parts s now request _ _ _ h, if_neg hcode]
  by_cases hon : notOnline s.clientDB (rest.headD "") = true
  · rw [if_pos ⟨hact, hon⟩, if_pos hon]
  · rw [if_neg (fun hh => hon hh.2), if_neg hon]

theorem find_eq_none_iff (db : ClientDB) (key : String) :
    db.find key = none ↔ key ∉ db.map Prod.fst := by
  induction db with
  | nil => simp [ClientDB.find]
  | cons e rest ih =>
    obtain ⟨k, v⟩ := e
    by_cases hk : k = key
    · simp [ClientDB.find, hk]
    · have hk2 : ¬ key = k := fun h => hk h.symm
      simp [ClientDB.find, hk, hk2, ih]

theorem assign_of_absent (db : ClientDB) (key : String) (value : ClientInfo)
    (h : db.find key = none) : db.assign key value = db ++ [(key, value)] := by
  induction db with
  | nil => rfl
  | cons e rest ih =>
    obtain ⟨k, v⟩ := e
    by_cases hk : k = key
    · simp [ClientDB.find, hk] at h
    · simp only [ClientDB.find, if_neg hk] at h
      simp [ClientDB.assign, hk, ih h]

theorem find_append_single (db : ClientDB) (key k : String) (value : ClientInfo) :
    ClientDB.find (db ++ [(key, value)]) k =
      match db.find k with
      | some v => some v
      | none => if key = k then some value else none := by
  induction db with
  | nil => simp [ClientDB.find]
  | cons e rest ih =>
    obtain ⟨k0, v0⟩ := e
    by_cases hk : k0 = k
    · simp [ClientDB.find, hk]
    · simpa [ClientDB.find, hk] using ih

theorem find_modify (db : ClientDB) (key k : String) (f : ClientInfo → ClientInfo) :
    (db.modify key f).find k = if key = k then (db.find k).map f else db.find k := by
  induction db with
  | nil => simp [ClientDB.modify, ClientDB.find]
  | cons e rest ih =>
    obtain ⟨k0, v0⟩ := e
    by_cases h1 : k0 = key
    · by_cases h2 : key = k
      · subst h1; subst h2; simp [ClientDB.modify, ClientDB.find]
      · have h3 : ¬ k0 = k := fun h => h2 (h1 ▸ h)
        simp [ClientDB.modify, ClientDB.find, h1, h2]
    · by_cases h2 : k0 = k
      · have h3 : ¬ key = k := fun h => h1 (h2.trans h.symm)
        subst h2
        simp [ClientDB.modify, ClientDB.find, h1, h3]
      · simp [ClientDB.modify, ClientDB.find, h1, h2, ih]

theorem modify_keys (db : ClientDB) (key : String) (f : ClientInfo → ClientInfo) :
    (db.modify key f).map Prod.fst = db.map Prod.fst := by
  induction db with
  | nil => rfl
  | cons e rest ih =>
    obtain ⟨k0, v0⟩ := e
    by_cases h1 : k0 = key <;> simp [ClientDB.modify, h1, ih]

theorem assign_keys (db : ClientDB) (key : String) (value : ClientInfo) :
    (db.assign key value).map Prod.fst =
      if key ∈ db.map Prod.fst then db.map Prod.fst else db.map Prod.fst ++ [key] := by
  induction db with
  | nil => simp [ClientDB.assign]
  | cons e rest ih =>
    obtain ⟨k0, v0⟩ := e
    by_cases h1 : k0 = key
    · simp [ClientDB.assign, h1]
    · have h2 : ¬ key = k0 := fun h => h1 h.symm
      by_cases h3 : key ∈ rest.map Prod.fst
      · rw [if_pos h3] at ih
        have h4 : key ∈ ((k0, v0) :: rest).map Prod.fst := by
          rw [List.map_cons]; exact List.mem_cons_of_mem _ h3
        rw [if_pos h4]
        simp [ClientDB.assign, h1, ih]
      · rw [if_neg h3] at ih
        have h4 : key ∉ ((k0, v0) :: rest).map Prod.fst := by
          rw [List.map_cons]
          intro hm
          rcases List.mem_cons.mp hm with h | h
          · exact h2 h
          · exact h3 h
        rw [if_neg h4]
        simp [ClientDB.assign, h1, ih]

theorem assign_WF (db : ClientDB) (key : String) (value : ClientInfo) (h : db.WF) :
    (db.assign key value).WF := by
  unfold ClientDB.WF at h ⊢
  rw [assign_keys]
  by_cases hk : key ∈ db.map Prod.fst
  · rw [if_pos hk]; exact h
  · rw [if_neg hk]
    exact List.Nodup.append h (List.nodup_singleton key)
      (by simpa [List.disjoint_singleton] using hk)

theorem modify_WF (db : ClientDB) (key : String) (f : ClientInfo → ClientInfo) (h : db.WF) :
    (db.modify key f).WF := by
  unfold ClientDB.WF at h ⊢
  rw [modify_keys]; exact h

theorem five_tokens (a b c d e : String) (rest : List String) :
    ¬ (a :: b :: c :: d :: e :: rest).length < 5 := by
  simp only [List.length_cons]; omega

theorem four_tokens (a b c d : String) (rest : List String) :
    ¬ (a :: b :: c :: d :: rest).length < 4 := by
  simp only [List.length_cons]; omega

theorem dispatch_reg (s : Server) (now : Int) (code u p a origin : String)
    (rest : List String) :
    dispatch s now (code :: "REG" :: u :: p :: a :: rest) "REG" origin =
      if s.clientDB.count u ≠ 0 then (s, "ERROR|Username exists")
      else (⟨s.clientDB.assign u ⟨u, p, a, now⟩,
        saveClientDB (s.clientDB.assign u ⟨u, p, a, now⟩)⟩,
        "SUCCESS|Registration successful") := by
  unfold dispatch
  simp only [if_true, if_neg (five_tokens _ _ _ _ _ _), List.getD_cons_succ,
    List.getD_cons_zero]

theorem dispatch_log (s : Server) (now : Int) (code u p a origin : String)
    (rest : List String) :
    dispatch s now (code :: "LOG" :: u :: p :: a :: rest) "LOG" origin =
      match s.clientDB.find u with
      | some info =>
        if info.password = p then
          (⟨s.clientDB.modify u (fun i => { i with ip_port := a, lastHeartbeat := now }),
            saveClientDB
              (s.clientDB.modify u (fun i => { i with ip_port := a, lastHeartbeat := now }))⟩,
            "SUCCESS|Login successful")
        else (s, "ERROR|Invalid credentials")
      | none => (s, "ERROR|Invalid credentials") := by
  have h : ¬ ("LOG" = "REG") := by decide
  unfold dispatch
  simp only [if_true, if_neg h, if_neg (five_tokens _ _ _ _ _ _), List.getD_cons_succ,
    List.getD_cons_zero]

theorem dispatch_srch (s : Server) (now : Int) (code o target origin : String)
    (rest : List String) :
    dispatch s now (code :: "SRCH" :: o :: target :: rest) "SRCH" origin =
      match s.clientDB.find target with
      | some info =>
        if info.ip_port ≠ "null" then (s, "SUCCESS|" ++ info.ip_port)
        else (s, "ERROR|User offline")
      | none => (s, "ERROR|User not found") := by
  have h1 : ¬ ("SRCH" = "REG") := by decide
  have h2 : ¬ ("SRCH" = "LOG") := by decide
  have h3 : ¬ ("SRCH" = "PULS") := by decide
  unfold dispatch
  simp only [if_true, if_neg h1, if_neg h2, if_neg h3, if_neg (four_tokens _ _ _ _ _),
    List.getD_cons_succ, List.getD_cons_zero]

theorem dispatch_srch_short (s : Server) (now : Int) (parts : List String)
    (origin : String) (hlen : parts.length < 4) :
    dispatch s now parts "SRCH" origin = (s, "ERROR|Invalid format") := by
  have h1 : ¬ ("SRCH" = "REG") := by decide
  have h2 : ¬ ("SRCH" = "LOG") := by decide
  have h3 : ¬ ("SRCH" = "PULS") := by decide
  unfold dispatch
  simp only [if_true, if_neg h1, if_neg h2, if_neg h3, if_pos hlen]

theorem dispatch_reg_short (s : Server) (now : Int) (parts : List String)
    (origin : String) (hlen : parts.length < 5) :
    dispatch s now parts "REG" origin = (s, "ERROR|Invalid format") := by
  unfold dispatch
  simp only [if_true, if_pos hlen]

theorem dispatch_log_short (s : Server) (now : Int) (parts : List String)
    (origin : String) (hlen : parts.length < 5) :
    dispatch s now parts "LOG" origin = (s, "ERROR|Invalid format") := by
  have h : ¬ ("LOG" = "REG") := by decide
  unfold dispatch
  simp only [if_true, if_neg h, if_pos hlen]

theorem dispatch_disc (s : Server) (now : Int) (parts : List String) (origin : String) :
    dispatch s now parts "DISC" origin =
      match s.clientDB.find origin with
      | some _ =>
        (⟨s.clientDB.modify origin (fun i => { i with ip_port := "null" }), s.dbFile⟩,
          "SUCCESS|Disconnected successfully")
      | none => (s, "ERROR|User not found") := by
  have h1 : ¬ ("DISC" = "REG") := by decide
  have h2 : ¬ ("DISC" = "LOG") := by decide
  have h3 : ¬ ("DISC" = "PULS") := by decide
  have h4 : ¬ ("DISC" = "SRCH") := by decide
  unfold dispatch
  simp only [if_true, if_neg h1, if_neg h2, if_neg h3, if_neg h4]

/-- The handler keeps the keys of the map pairwise distinct. -/
theorem handleClient_WF (s : Server) (now : Int) (request : String) (h : s.clientDB.WF) :
    (handleClient s now request).1.clientDB.WF := by
  have hd : ∀ parts action origin, (dispatch s now parts action origin).1.clientDB.WF := by
    intro parts action origin
    unfold dispatch
    dsimp only
    repeat' split
    all_goals first
      | exact h
      | exact assign_WF _ _ _ h
      | exact modify_WF _ _ _ h
  unfold handleClient
  dsimp only
  repeat' split
  all_goals first
    | exact h
    | exact hd _ _ _

/-- The monitor tick keeps the keys of the map as they are. -/
theorem sweep_keys (timeout now : Int) (db : ClientDB) :
    (sweep timeout now db).map Prod.fst = db.map Prod.fst := by
  unfold sweep
  rw [List.map_map]
  apply List.map_congr_left
  intro e _
  show (sweepEntry timeout now e).1 = e.1
  unfold sweepEntry
  split <;> rfl

/-! ## Registration -/

/-- C1: a REG request with the valid application code and at least five tokens is answered
`ERROR|Username exists` with the whole state unchanged when the username is already a key
of the map; when it is absent the answer is `SUCCESS|Registration successful`, exactly one
entry (the username with the given password, address and `now`) is added, the new map
finds it, and every other key finds what it found before. -/
theorem reg_exists_or_inserts (s : Server) (now : Int) (request : String)
    (username password ip_port : String) (rest : List String)
    (hparts : splitString request '|' =
      APP_CODE :: "REG" :: username :: password :: ip_port :: rest) :
    (username ∈ s.clientDB.map Prod.fst →
      handleClient s now request = (s, some "ERROR|Username exists")) ∧
    (username ∉ s.clientDB.map Prod.fst →
      (handleClient s now request).2 = some "SUCCESS|Registration successful" ∧
      (handleClient s now request).1.clientDB =
        s.clientDB ++ [(username, ⟨username, password, ip_port, now⟩)] ∧
      (handleClient s now request).1.clientDB.find username =
        some ⟨username, password, ip_port, now⟩ ∧
      ∀ k, k ≠ username →
        (handleClient s now request).1.clientDB.find k = s.clientDB.find k) := by
  have hreg : ¬ ("REG" = "PULS" ∨ "REG" = "SRCH") := by decide
  rw [handleClient_of_parts s now request _ _ _ hparts, dispatch_reg]
  simp only [ne_eq, not_true_eq_false, if_false, hreg, false_and]
  constructor
  · intro hmem
    have hfind : s.clientDB.find username ≠ none := fun h =>
      (find_eq_none_iff _ _).mp h hmem
    obtain ⟨info, hinfo⟩ := Option.ne_none_iff_exists'.mp hfind
    simp [ClientDB.count, hinfo]
  · intro hmem
    have hfind : s.clientDB.find username = none := (find_eq_none_iff _ _).mpr hmem
    have hassign := assign_of_absent s.clientDB username
      ⟨username, password, ip_port, now⟩ hfind
    simp only [ClientDB.count, hfind, hassign, not_true_eq_false, if_false]
    refine ⟨trivial, trivial, ?_, ?_⟩
    · simp [find_append_single, hfind]
    · intro k hk
      have hk2 : ¬ username = k := fun h => hk h.symm
      rw [find_append_single, if_neg hk2]
      cases s.clientDB.find k <;> rfl

theorem reg_exists_or_inserts_witness :
    handleClient demoServer 7 "SECRET_APP_123|REG|alice|pw9|9.9.9.9:9" =
        (demoServer, some "ERROR|Username exists") ∧
      (handleClient demoServer 7 "SECRET_APP_123|REG|carol|pw3|9.9.9.9:9").1.clientDB =
        demoServer.clientDB ++ [("carol", ⟨"carol", "pw3", "9.9.9.9:9", 7⟩)] :=
  ⟨(reg_exists_or_inserts demoServer 7 "SECRET_APP_123|REG|alice|pw9|9.9.9.9:9"
      "alice" "pw9" "9.9.9.9:9" [] (by decide)).1 (by decide),
    ((reg_exists_or_inserts demoServer 7 "SECRET_APP_123|REG|carol|pw3|9.9.9.9:9"
      "carol" "pw3" "9.9.9.9:9" [] (by decide)).2 (by decide)).2.1⟩

theorem origin_offline_reply (s : Server) (now : Int) (request action : String)
    (rest : List String)
    (hparts : splitString request '|' = APP_CODE :: action :: rest)
    (hact : action = "PULS" ∨ action = "SRCH")
    (hno : notOnline s.clientDB (rest.headD "") = true) :
    handleClient s now request = (s, some "ERROR|User not online") := by
  rw [handleClient_of_parts s now request _ _ _ hparts]
  simp only [ne_eq, not_true_eq_false, if_false, hact, hno, and_self, if_true]

/-! ## Login and the presence gate -/

/-- C2: a LOG request with the valid application code and at least five tokens, for a
registered username whose stored password differs from the one sent, is answered with the
ERROR response `ERROR|Invalid credentials`, and the whole state (every record with its
address and lastHeartbeat, and the file) is what it was before. -/
theorem log_wrong_password_no_change (s : Server) (now : Int) (request : String)
    (username password ip_port : String) (rest : List String) (info : ClientInfo)
    (hparts : splitString request '|' =
      APP_CODE :: "LOG" :: username :: password :: ip_port :: rest)
    (hreg : s.clientDB.find username = some info)
    (hpw : info.password ≠ password) :
    handleClient s now request = (s, some "ERROR|Invalid credentials") := by
  have hlog : ¬ ("LOG" = "PULS" ∨ "LOG" = "SRCH") := by decide
  rw [handleClient_of_parts s now request _ _ _ hparts, dispatch_log]
  simp only [ne_eq, not_true_eq_false, if_false, hlog, false_and, hreg, if_neg hpw]

theorem log_wrong_password_no_change_witness :
    handleClient demoServer 7 "SECRET_APP_123|LOG|alice|wrong|9.9.9.9:9" =
      (demoServer, some "ERROR|Invalid credentials") :=
  log_wrong_password_no_change demoServer 7 "SECRET_APP_123|LOG|alice|wrong|9.9.9.9:9"
    "alice" "wrong" "9.9.9.9:9" [] ⟨"alice", "pw1", "1.2.3.4:9", 0⟩
    (by decide) (by decide) (by decide)

/-- C3: a PULS or SRCH request with the valid application code whose origin (token 2, the
empty string when the request has only two tokens) is not a key of the map, or is stored
with the address `"null"`, is answered exactly `ERROR|User not online` and the whole state
is unchanged, whatever the remaining tokens are. -/
theorem origin_not_online_rejected (s : Server) (now : Int) (request action : String)
    (rest : List String)
    (hparts : splitString request '|' = APP_CODE :: action :: rest)
    (hact : action = "PULS" ∨ action = "SRCH")
    (hoff : s.clientDB.find (rest.headD "") = none ∨
      ∃ info, s.clientDB.find (rest.headD "") = some info ∧ info.ip_port = "null") :
    handleClient s now request = (s, some "ERROR|User not online") := by
  have hno : notOnline s.clientDB (rest.headD "") = true := by
    unfold notOnline
    rcases hoff with h | ⟨info, h, hnull⟩
    · rw [h]
    · rw [h]
      simp [hnull]
  exact origin_offline_reply s now request action rest hparts hact hno

theorem origin_not_online_rejected_witness :
    handleClient demoServer 7 "SECRET_APP_123|SRCH|carol|alice" =
      (demoServer, some "ERROR|User not online") :=
  origin_not_online_rejected demoServer 7 "SECRET_APP_123|SRCH|carol|alice" "SRCH"
    ["carol", "alice"] (by decide) (Or.inr rfl) (Or.inl (by decide))

/-! ## Lookup after login, disconnect and eviction -/

theorem log_success_state (s : Server) (now : Int) (login id secret addr : String)
    (rest : List String)
    (hlogin : splitString login '|' = APP_CODE :: "LOG" :: id :: secret :: addr :: rest)
    (hok : (handleClient s now login).2 = some "SUCCESS|Login successful") :
    ∃ info, s.clientDB.find id = some info ∧ info.password = secret ∧
      (handleClient s now login).1 =
        ⟨s.clientDB.modify id (fun i => { i with ip_port := addr, lastHeartbeat := now }),
          saveClientDB (s.clientDB.modify id
            (fun i => { i with ip_port := addr, lastHeartbeat := now }))⟩ := by
  have hlog : ¬ ("LOG" = "PULS" ∨ "LOG" = "SRCH") := by decide
  have hbad : ¬ ("ERROR|Invalid credentials" = "SUCCESS|Login successful") := by decide
  rw [handleClient_of_parts s now login _ _ _ hlogin, dispatch_log] at hok ⊢
  simp only [ne_eq, not_true_eq_false, if_false, hlog, false_and] at hok ⊢
  cases hf : s.clientDB.find id with
  | none =>
    rw [hf] at hok
    exact absurd (Option.some.inj hok) hbad
  | some info =>
    rw [hf] at hok
    by_cases hp : info.password = secret
    · exact ⟨info, rfl, hp, by simp only [if_pos hp]⟩
    · simp only [if_neg hp] at hok
      exact absurd (Option.some.inj hok) hbad

/-- C4 fails as stated: a login whose address is the text `null` succeeds, and the lookup
that follows, sent by the online client bob, is answered `ERROR|User offline`. -/
theorem lookup_after_login_null_counterexample :
    (handleClient demoServer 7 "SECRET_APP_123|LOG|alice|pw1|null").2 =
        some "SUCCESS|Login successful" ∧
      notOnline (handleClient demoServer 7 "SECRET_APP_123|LOG|alice|pw1|null").1.clientDB
        "bob" = false ∧
      (handleClient (handleClient demoServer 7 "SECRET_APP_123|LOG|alice|pw1|null").1 8
        "SECRET_APP_123|SRCH|bob|alice").2 = some "ERROR|User offline" ∧
      (handleClient (handleClient demoServer 7 "SECRET_APP_123|LOG|alice|pw1|null").1 8
        "SECRET_APP_123|SRCH|bob|alice").2 ≠ some ("SUCCESS|" ++ "null") := by
  decide

/-- C4 (amended): when a LOG request for `id` with an address `addr` other than the text
`null` is answered `SUCCESS|Login successful`, an immediately following SRCH request with
target `id` from an origin that is online in the resulting state is answered
`SUCCESS|addr`, and the lookup changes nothing. -/
theorem lookup_after_login (s : Server) (now later : Int) (login search : String)
    (id secret addr origin : String) (rest rest2 : List String)
    (hlogin : splitString login '|' = APP_CODE :: "LOG" :: id :: secret :: addr :: rest)
    (hok : (handleClient s now login).2 = some "SUCCESS|Login successful")
    (hsearch : splitString search '|' = APP_CODE :: "SRCH" :: origin :: id :: rest2)
    (honline : notOnline (handleClient s now login).1.clientDB origin = false)
    (haddr : addr ≠ "null") :
    handleClient (handleClient s now login).1 later search =
      ((handleClient s now login).1, some ("SUCCESS|" ++ addr)) := by
  obtain ⟨info, hinfo, -, hstate⟩ := log_success_state s now login id secret addr rest
    hlogin hok
  have hfind : (handleClient s now login).1.clientDB.find id =
      some { info with ip_port := addr, lastHeartbeat := now } := by
    rw [hstate]
    simp [find_modify, hinfo]
  rw [handleClient_of_parts _ later search _ _ _ hsearch, dispatch_srch]
  simp only [ne_eq, not_true_eq_false, if_false, List.headD_cons, honline, hfind,
    Bool.false_eq_true, and_false, haddr, not_false_eq_true, if_true]

theorem lookup_after_login_witness :
    handleClient (handleClient demoServer 7 "SECRET_APP_123|LOG|alice|pw1|1.2.3.4:10").1 8
        "SECRET_APP_123|SRCH|bob|alice" =
      ((handleClient demoServer 7 "SECRET_APP_123|LOG|alice|pw1|1.2.3.4:10").1,
        some ("SUCCESS|" ++ "1.2.3.4:10")) :=
  lookup_after_login demoServer 7 8 "SECRET_APP_123|LOG|alice|pw1|1.2.3.4:10"
    "SECRET_APP_123|SRCH|bob|alice" "alice" "pw1" "1.2.3.4:10" "bob" [] []
    (by decide) (by decide) (by decide) (by decide) (by decide)

theorem find_sweep (timeout now : Int) (db : ClientDB) (key : String) :
    (sweep timeout now db).find key =
      (db.find key).map (fun info => (sweepEntry timeout now (key, info)).2) := by
  induction db with
  | nil => rfl
  | cons e rest ih =>
    obtain ⟨k, v⟩ := e
    have hfst : (sweepEntry timeout now (k, v)).1 = k := by
      unfold sweepEntry; split <;> rfl
    have hcons : sweep timeout now ((k, v) :: rest) =
        ((sweepEntry timeout now (k, v)).1, (sweepEntry timeout now (k, v)).2) ::
          sweep timeout now rest := rfl
    rw [hcons, hfst]
    by_cases hk : k = key
    · subst hk; simp [ClientDB.find]
    · simpa [ClientDB.find, hk, sweep] using ih

theorem error_ne_success (e a : String) (h : e.data.head? = some 'E') :
    e ≠ "SUCCESS|" ++ a := by
  intro heq
  rw [heq] at h
  simp [String.data_append] at h

theorem success_append_inj (a b : String) (h : "SUCCESS|" ++ a = "SUCCESS|" ++ b) :
    a = b := by
  have hd := congrArg String.data h
  simp only [String.data_append] at hd
  exact String.ext (List.append_cancel_left hd)

/-- C5: (1) after a DISC request for `id` answered `SUCCESS|Disconnected successfully`, and
(2) after a monitor tick at a time `now` at which the record of `id` has a non-`null`
address and `now - lastHeartbeat` exceeds the 30 s timeout, a SRCH request with target `id`
from an origin that is online in the resulting state is answered `ERROR|User offline`;
(3) whenever any SRCH request is answered `SUCCESS|a`, then `a` is the stored address of
the target record and is not `null`, so no record stored with address `null` is ever
returned as a successful lookup. -/
theorem lookup_offline_after_disc_or_eviction (s : Server) (later : Int)
    (search origin id : String) (rest2 : List String)
    (hsearch : splitString search '|' = APP_CODE :: "SRCH" :: origin :: id :: rest2) :
    (∀ (now : Int) (disc : String) (rest : List String),
      splitString disc '|' = APP_CODE :: "DISC" :: id :: rest →
      (handleClient s now disc).2 = some "SUCCESS|Disconnected successfully" →
      notOnline (handleClient s now disc).1.clientDB origin = false →
      handleClient (handleClient s now disc).1 later search =
        ((handleClient s now disc).1, some "ERROR|User offline")) ∧
    (∀ (now : Int) (info : ClientInfo),
      s.clientDB.find id = some info → info.ip_port ≠ "null" →
      now - info.lastHeartbeat > HEARTBEAT_TIMEOUT →
      notOnline (heartbeatTick s now).clientDB origin = false →
      handleClient (heartbeatTick s now) later search =
        (heartbeatTick s now, some "ERROR|User offline")) ∧
    (∀ (request a : String) (rest : List String),
      splitString request '|' = APP_CODE :: "SRCH" :: rest →
      (handleClient s later request).2 = some ("SUCCESS|" ++ a) →
      a ≠ "null" ∧ ∃ info, s.clientDB.find (rest.getD 1 "") = some info ∧
        info.ip_port = a) := by
  have hsrch : ∀ (st : Server) (info : ClientInfo), notOnline st.clientDB origin = false →
      st.clientDB.find id = some info → info.ip_port = "null" →
      handleClient st later search = (st, some "ERROR|User offline") := by
    intro st info hon hf hnull
    rw [handleClient_of_parts _ later search _ _ _ hsearch, dispatch_srch]
    simp only [ne_eq, not_true_eq_false, if_false, List.headD_cons, hon, hf, hnull,
      Bool.false_eq_true, and_false, if_true]
  refine ⟨?_, ?_, ?_⟩
  · intro now disc rest hdisc hok hon
    have hact : ¬ ("DISC" = "PULS" ∨ "DISC" = "SRCH") := by decide
    have hbad : ¬ ("ERROR|User not found" = "SUCCESS|Disconnected successfully") := by
      decide
    have hst : ∃ info, s.clientDB.find id = some info ∧ (handleClient s now disc).1 =
        ⟨s.clientDB.modify id (fun i => { i with ip_port := "null" }), s.dbFile⟩ := by
      rw [handleClient_of_parts s now disc _ _ _ hdisc, dispatch_disc] at hok ⊢
      simp only [ne_eq, not_true_eq_false, if_false, hact, false_and,
        List.headD_cons] at hok ⊢
      cases hf : s.clientDB.find id with
      | none =>
        rw [hf] at hok
        exact absurd (Option.some.inj hok) hbad
      | some info => exact ⟨info, rfl, rfl⟩
    obtain ⟨info, hinfo, hstate⟩ := hst
    refine hsrch _ { info with ip_port := "null" } hon ?_ rfl
    rw [hstate]
    simp [find_modify, hinfo]
  · intro now info hinfo hip htime hon
    refine hsrch _ { info with ip_port := "null" } hon ?_ rfl
    show (sweep HEARTBEAT_TIMEOUT now s.clientDB).find id = _
    rw [find_sweep, hinfo]
    simp [sweepEntry, hip, htime]
  · intro request a rest hreq hresp
    rw [handleClient_srch s later request _ hreq] at hresp
    by_cases hon : notOnline s.clientDB (rest.headD "") = true
    · rw [if_pos hon] at hresp
      exact absurd (Option.some.inj hresp)
        (error_ne_success "ERROR|User not online" a (by decide))
    · rw [if_neg hon] at hresp
      have hresp2 := Option.some.inj hresp
      match rest, hresp2 with
      | [], h =>
        rw [dispatch_srch_short _ _ _ _ (by decide)] at h
        exact absurd h (error_ne_success "ERROR|Invalid format" a (by decide))
      | [_], h =>
        rw [dispatch_srch_short _ _ _ _ (by simp)] at h
        exact absurd h (error_ne_success "ERROR|Invalid format" a (by decide))
      | o :: target :: more, h =>
        rw [dispatch_srch] at h
        simp only [List.getD_cons_succ, List.getD_cons_zero]
        cases hf : s.clientDB.find target with
        | none =>
          rw [hf] at h
          exact absurd h (error_ne_success "ERROR|User not found" a (by decide))
        | some info =>
          rw [hf] at h
          by_cases hn : info.ip_port = "null"
          · simp only [ne_eq, hn, not_true_eq_false, if_false] at h
            exact absurd h (error_ne_success "ERROR|User offline" a (by decide))
          · simp only [ne_eq, hn, not_false_eq_true, if_true] at h
            have ha := success_append_inj _ _ h
            exact ⟨ha ▸ hn, info, rfl, ha⟩

theorem lookup_offline_after_disc_or_eviction_witness :
    handleClient (handleClient demoServer 7 "SECRET_APP_123|DISC|alice").1 8
          "SECRET_APP_123|SRCH|bob|alice" =
        ((handleClient demoServer 7 "SECRET_APP_123|DISC|alice").1,
          some "ERROR|User offline") ∧
      handleClient
          (heartbeatTick (handleClient demoServer 20000000000 "SECRET_APP_123|PULS|bob").1
            31000000000) 31000000001 "SECRET_APP_123|SRCH|bob|alice" =
        (heartbeatTick (handleClient demoServer 20000000000 "SECRET_APP_123|PULS|bob").1
          31000000000, some "ERROR|User offline") :=
  ⟨(lookup_offline_after_disc_or_eviction demoServer 8 "SECRET_APP_123|SRCH|bob|alice"
      "bob" "alice" [] (by decide)).1 7 "SECRET_APP_123|DISC|alice" []
      (by decide) (by decide) (by decide),
    (lookup_offline_after_disc_or_eviction
      (handleClient demoServer 20000000000 "SECRET_APP_123|PULS|bob").1 31000000001
      "SECRET_APP_123|SRCH|bob|alice" "bob" "alice" [] (by decide)).2.1 31000000000
      ⟨"alice", "pw1", "1.2.3.4:9", 0⟩ (by decide) (by decide) (by decide) (by decide)⟩

/-! ## Heartbeat sweep -/

theorem sweepEntry_idem (timeout now : Int) (p : String × ClientInfo) :
    sweepEntry timeout now (sweepEntry timeout now p) = sweepEntry timeout now p := by
  by_cases h : p.2.ip_port ≠ "null" ∧ now - p.2.lastHeartbeat > timeout
  · simp [sweepEntry, h]
  · simp only [sweepEntry, if_neg h]

/-- C6: one pass of the monitor loop at clock value `now` with timeout `timeout` (the
monitor uses the 30 s of `HEARTBEAT_TIMEOUT`) relates every record `before` to the record
`after` at the same place of the map so that: key, username, password and lastHeartbeat
are the same; the address after is `null` exactly when it was `null` before or it was not
`null` and `now - lastHeartbeat > timeout`; a record with `now - lastHeartbeat <= timeout`,
and a record already `null`, is unchanged. A second pass at the same `now` changes
nothing. -/
theorem sweep_tick_correct (timeout now : Int) (db : ClientDB) :
    List.Forall₂ (fun before after =>
        after.1 = before.1 ∧ after.2.username = before.2.username ∧
        after.2.password = before.2.password ∧
        after.2.lastHeartbeat = before.2.lastHeartbeat ∧
        (after.2.ip_port = "null" ↔ before.2.ip_port = "null" ∨
          (before.2.ip_port ≠ "null" ∧ now - before.2.lastHeartbeat > timeout)) ∧
        (now - before.2.lastHeartbeat ≤ timeout → after = before) ∧
        (before.2.ip_port = "null" → after = before))
      db (sweep timeout now db) ∧
    sweep timeout now (sweep timeout now db) = sweep timeout now db := by
  constructor
  · unfold sweep
    rw [List.forall₂_map_right_iff, List.forall₂_same]
    intro e _
    by_cases h : e.2.ip_port ≠ "null" ∧ now - e.2.lastHeartbeat > timeout
    · have hgt : ¬ (now - e.2.lastHeartbeat ≤ timeout) := not_le.mpr h.2
      simp [sweepEntry, h, hgt]
    · rw [sweepEntry, if_neg h]
      refine ⟨rfl, rfl, rfl, rfl, ?_, fun _ => rfl, fun _ => rfl⟩
      constructor
      · intro hn; exact Or.inl hn
      · rintro (hn | hh)
        · exact hn
        · exact absurd hh h
  · unfold sweep
    rw [List.map_map]
    apply List.map_congr_left
    intro e _
    exact sweepEntry_idem timeout now e

theorem sweep_tick_correct_witness :
    sweep HEARTBEAT_TIMEOUT 31000000000
        (sweep HEARTBEAT_TIMEOUT 31000000000 demoServer.clientDB) =
      sweep HEARTBEAT_TIMEOUT 31000000000 demoServer.clientDB :=
  (sweep_tick_correct HEARTBEAT_TIMEOUT 31000000000 demoServer.clientDB).2

/-! ## Application code and format checks -/

/-- C7 at a failing input: the request `WRONG|REG|carol|pw|1.1.1.1:1` has a first token
that differs from the application code; the handler leaves the state unchanged and sends
`ERROR|Invalid application cod`, the first 29 bytes of the 30-byte text
`ERROR|Invalid application code`, so the bytes sent are not exactly that text. The two
other fixed replies are sent with their full lengths 20 and 21. -/
theorem bad_code_reply_truncated :
    splitString "WRONG|REG|carol|pw|1.1.1.1:1" '|' =
        ["WRONG", "REG", "carol", "pw", "1.1.1.1:1"] ∧
      "WRONG" ≠ APP_CODE ∧
      "ERROR|Invalid application code".length = 30 ∧
      handleClient demoServer 7 "WRONG|REG|carol|pw|1.1.1.1:1" =
        (demoServer, some "ERROR|Invalid application cod") ∧
      (handleClient demoServer 7 "WRONG|REG|carol|pw|1.1.1.1:1").2 ≠
        some "ERROR|Invalid application code" ∧
      send "ERROR|Invalid format" 20 = "ERROR|Invalid format" ∧
      send "ERROR|User not online" 21 = "ERROR|User not online" := by
  decide

/-- A request with a single token is answered `ERROR|Invalid format` before the
application code is looked at, with the state unchanged. -/
theorem single_token_invalid_format (s : Server) (now : Int) (request token : String)
    (h : splitString request '|' = [token]) :
    handleClient s now request = (s, some "ERROR|Invalid format") := by
  have hlen := request_length_of_parts h
  have hsend : send "ERROR|Invalid format" 20 = "ERROR|Invalid format" := by decide
  unfold handleClient
  simp [h, hlen, hsend]

/-- A request with at least two tokens and a wrong application code leaves the map and the
file unchanged, whatever the remaining tokens are. -/
theorem wrong_code_state_unchanged (s : Server) (now : Int) (request code action : String)
    (rest : List String) (h : splitString request '|' = code :: action :: rest)
    (hcode : code ≠ APP_CODE) :
    (handleClient s now request).1 = s := by
  rw [handleClient_of_parts s now request _ _ _ h, if_pos hcode]

/-- C8 fails as stated: with the registry of `demoServer` (no record for `carol` or for
the empty username), a SRCH request without target is answered `ERROR|User not online`, a
PULS request without username `ERROR|User not online`, and a DISC request without
username `ERROR|User not found`; none is answered `ERROR|Invalid format`. -/
theorem short_request_counterexample :
    handleClient demoServer 7 "SECRET_APP_123|SRCH|carol" =
        (demoServer, some "ERROR|User not online") ∧
      handleClient demoServer 7 "SECRET_APP_123|PULS" =
        (demoServer, some "ERROR|User not online") ∧
      handleClient demoServer 7 "SECRET_APP_123|DISC" =
        (demoServer, some "ERROR|User not found") := by
  decide

/-- C8 (amended): with the valid application code, (1) a REG or LOG request with fewer
than five tokens is answered `ERROR|Invalid format`; (2) a SRCH request with fewer than
four tokens is answered `ERROR|User not online` when its origin (the empty string when
absent) is not online, and `ERROR|Invalid format` when it is online; (3) a PULS or DISC
request without a username token is handled with the empty string as origin, and when no
record is stored under the empty string PULS is answered `ERROR|User not online` and DISC
`ERROR|User not found`. In all these cases the map and the file are unchanged. -/
theorem short_request_handling (s : Server) (now : Int) (request action : String)
    (rest : List String)
    (hparts : splitString request '|' = APP_CODE :: action :: rest) :
    (action = "REG" ∨ action = "LOG" → rest.length < 3 →
      handleClient s now request = (s, some "ERROR|Invalid format")) ∧
    (action = "SRCH" → rest.length < 2 →
      handleClient s now request =
        (s, some (if notOnline s.clientDB (rest.headD "") = true
          then "ERROR|User not online" else "ERROR|Invalid format"))) ∧
    (action = "PULS" → rest = [] → s.clientDB.find "" = none →
      handleClient s now request = (s, some "ERROR|User not online")) ∧
    (action = "DISC" → rest = [] → s.clientDB.find "" = none →
      handleClient s now request = (s, some "ERROR|User not found")) := by
  have hcode : ¬ (APP_CODE ≠ APP_CODE) := fun h => h rfl
  refine ⟨?_, ?_, ?_, ?_⟩
  · intro hact hlen
    have hlen5 : (APP_CODE :: action :: rest).length < 5 := by
      simp only [List.length_cons]; omega
    rw [handleClient_of_parts s now request _ _ _ hparts, if_neg hcode]
    rcases hact with h | h
    · subst h
      have hno : ¬ (("REG" = "PULS" ∨ "REG" = "SRCH") ∧
          notOnline s.clientDB (rest.headD "") = true) := fun hh => absurd hh.1 (by decide)
      rw [if_neg hno, dispatch_reg_short _ _ _ _ hlen5]
    · subst h
      have hno : ¬ (("LOG" = "PULS" ∨ "LOG" = "SRCH") ∧
          notOnline s.clientDB (rest.headD "") = true) := fun hh => absurd hh.1 (by decide)
      rw [if_neg hno, dispatch_log_short _ _ _ _ hlen5]
  · intro hact hlen
    subst hact
    have hlen4 : (APP_CODE :: "SRCH" :: rest).length < 4 := by
      simp only [List.length_cons]; omega
    rw [handleClient_srch s now request _ hparts]
    by_cases hon : notOnline s.clientDB (rest.headD "") = true
    · rw [if_pos hon, if_pos hon]
    · rw [if_neg hon, if_neg hon, dispatch_srch_short _ _ _ _ hlen4]
  · intro hact hrest hfind
    subst hact; subst hrest
    exact origin_offline_reply s now request "PULS" [] hparts (Or.inl rfl)
      (by unfold notOnline; rw [List.headD_nil, hfind])
  · intro hact hrest hfind
    subst hact; subst hrest
    have hno : ¬ (("DISC" = "PULS" ∨ "DISC" = "SRCH") ∧
        notOnline s.clientDB ([].headD "") = true) := fun hh => absurd hh.1 (by decide)
    rw [handleClient_of_parts s now request _ _ _ hparts, if_neg hcode, if_neg hno,
      dispatch_disc, List.headD_nil, hfind]

theorem short_request_handling_witness :
    handleClient demoServer 7 "SECRET_APP_123|REG|carol|pw" =
      (demoServer, some "ERROR|Invalid format") :=
  (short_request_handling demoServer 7 "SECRET_APP_123|REG|carol|pw" "REG" ["carol", "pw"]
    (by decide)).1 (Or.inl rfl) (by decide)

/-- A PULS or DISC request without a username token acts on the record stored under the
empty username when there is one: here DISC marks it `null`. -/
theorem disc_without_username_acts_on_empty_key :
    handleClient ⟨[("", ⟨"", "pw", "1.1.1.1:1", 0⟩)], "|pw|1.1.1.1:1\n"⟩ 7
        "SECRET_APP_123|DISC" =
      (⟨[("", ⟨"", "pw", "null", 0⟩)], "|pw|1.1.1.1:1\n"⟩,
        some "SUCCESS|Disconnected successfully") := by
  decide

/-! ## Persistence after mutations -/

/-- C9 at failing inputs: a successful DISC for alice sets her address to `null` in the
map while the file is left as it was, so the file still records `1.2.3.4:9` for her and
differs from a snapshot of the map; a monitor tick that evicts both clients leaves the
file unchanged as well. -/
theorem disc_and_sweep_do_not_save :
    (handleClient demoServer 7 "SECRET_APP_123|DISC|alice").2 =
        some "SUCCESS|Disconnected successfully" ∧
      (handleClient demoServer 7 "SECRET_APP_123|DISC|alice").1.clientDB.find "alice" =
        some ⟨"alice", "pw1", "null", 0⟩ ∧
      (handleClient demoServer 7 "SECRET_APP_123|DISC|alice").1.dbFile =
        "alice|pw1|1.2.3.4:9\nbob|pw2|5.6.7.8:9\n" ∧
      (handleClient demoServer 7 "SECRET_APP_123|DISC|alice").1.dbFile ≠
        saveClientDB (handleClient demoServer 7 "SECRET_APP_123|DISC|alice").1.clientDB ∧
      (loadClientDB []
          (handleClient demoServer 7 "SECRET_APP_123|DISC|alice").1.dbFile).find "alice" =
        some ⟨"alice", "pw1", "1.2.3.4:9", 0⟩ ∧
      (heartbeatTick demoServer 31000000000).clientDB.find "alice" =
        some ⟨"alice", "pw1", "null", 0⟩ ∧
      (heartbeatTick demoServer 31000000000).dbFile =
        "alice|pw1|1.2.3.4:9\nbob|pw2|5.6.7.8:9\n" ∧
      (heartbeatTick demoServer 31000000000).dbFile ≠
        saveClientDB (heartbeatTick demoServer 31000000000).clientDB := by
  decide

/-- The sibling paths do save: after a REG or LOG request answered with SUCCESS the file
is the snapshot of the map. -/
theorem reg_log_save_snapshot (s : Server) (now : Int) (request action : String)
    (username password ip_port : String) (rest : List String)
    (hparts : splitString request '|' =
      APP_CODE :: action :: username :: password :: ip_port :: rest)
    (hact : action = "REG" ∨ action = "LOG")
    (hok : (handleClient s now request).2 = some "SUCCESS|Registration successful" ∨
      (handleClient s now request).2 = some "SUCCESS|Login successful") :
    (handleClient s now request).1.dbFile =
      saveClientDB (handleClient s now request).1.clientDB := by
  have hcode : ¬ (APP_CODE ≠ APP_CODE) := fun h => h rfl
  rw [handleClient_of_parts s now request _ _ _ hparts, if_neg hcode] at hok ⊢
  rcases hact with h | h
  · subst h
    have hno : ¬ (("REG" = "PULS" ∨ "REG" = "SRCH") ∧
        notOnline s.clientDB ((username :: password :: ip_port :: rest).headD "") = true) :=
      fun hh => absurd hh.1 (by decide)
    rw [if_neg hno, dispatch_reg] at hok ⊢
    by_cases hc : s.clientDB.count username ≠ 0
    · rw [if_pos hc] at hok
      rcases hok with h1 | h1
      · exact absurd (Option.some.inj h1)
          (show ¬ ("ERROR|Username exists" = "SUCCESS|Registration successful") by decide)
      · exact absurd (Option.some.inj h1)
          (show ¬ ("ERROR|Username exists" = "SUCCESS|Login successful") by decide)
    · rw [if_neg hc]
  · subst h
    have hno : ¬ (("LOG" = "PULS" ∨ "LOG" = "SRCH") ∧
        notOnline s.clientDB ((username :: password :: ip_port :: rest).headD "") = true) :=
      fun hh => absurd hh.1 (by decide)
    rw [if_neg hno, dispatch_log] at hok ⊢
    cases hf : s.clientDB.find username with
    | none =>
      rw [hf] at hok
      rcases hok with h1 | h1
      · exact absurd (Option.some.inj h1)
          (show ¬ ("ERROR|Invalid credentials" = "SUCCESS|Registration successful")
            by decide)
      · exact absurd (Option.some.inj h1)
          (show ¬ ("ERROR|Invalid credentials" = "SUCCESS|Login successful") by decide)
    | some info =>
      rw [hf] at hok
      by_cases hp : info.password = password
      · simp only [if_pos hp]
      · simp only [if_neg hp] at hok
        rcases hok with h1 | h1
        · exact absurd (Option.some.inj h1)
            (show ¬ ("ERROR|Invalid credentials" = "SUCCESS|Registration successful")
              by decide)
        · exact absurd (Option.some.inj h1)
            (show ¬ ("ERROR|Invalid credentials" = "SUCCESS|Login successful") by decide)

/-! ## Persistence round trip -/

theorem loop_token (d : Char) (xs rest token : List Char) (h : d ∉ xs) :
    splitString.loop d (xs ++ d :: rest) token =
      String.mk (token ++ xs) :: splitString.loop d rest [] := by
  induction xs generalizing token with
  | nil => simp [splitString.loop]
  | cons c xs ih =>
    have hc : ¬ c = d := fun hcd => h (hcd ▸ List.mem_cons_self c xs)
    have hxs : d ∉ xs := fun hm => h (List.mem_cons_of_mem c hm)
    rw [List.cons_append, splitString.loop, if_neg hc, ih _ hxs]
    simp

theorem loop_last (d : Char) (xs token : List Char) (h : d ∉ xs) (hne : token ++ xs ≠ []) :
    splitString.loop d xs token = [String.mk (token ++ xs)] := by
  induction xs generalizing token with
  | nil =>
    cases token with
    | nil => simp at hne
    | cons c t => simp [splitString.loop]
  | cons c xs ih =>
    have hc : ¬ c = d := fun hcd => h (hcd ▸ List.mem_cons_self c xs)
    have hxs : d ∉ xs := fun hm => h (List.mem_cons_of_mem c hm)
    rw [splitString.loop, if_neg hc, ih _ hxs (by simp)]
    simp

theorem split_line (info : ClientInfo) (hu : '|' ∉ info.username.data)
    (hp : '|' ∉ info.password.data) (ha : '|' ∉ info.ip_port.data)
    (hne : info.ip_port ≠ "") :
    splitString (String.mk (lineData info)) '|' =
      [info.username, info.password, info.ip_port] := by
  have hdata : info.ip_port.data ≠ [] := fun h => hne (String.ext h)
  unfold splitString lineData
  rw [loop_token _ _ _ _ hu, loop_token _ _ _ _ hp, loop_last _ _ _ ha (by simpa using hdata)]
  simp

theorem saveLine_data (info : ClientInfo) :
    (saveLine info).data = lineData info ++ ['\n'] := by
  have h1 : "|".data = ['|'] := rfl
  have h2 : "\n".data = ['\n'] := rfl
  simp [saveLine, lineData, String.data_append, h1, h2]

theorem save_foldl_data (db : ClientDB) (file : String) :
    (db.foldl (fun file entry => file ++ saveLine entry.2) file).data =
      file.data ++ fileData db := by
  induction db generalizing file with
  | nil => simp [fileData]
  | cons e rest ih =>
    rw [List.foldl_cons, ih, String.data_append, saveLine_data]
    simp [fileData]

theorem saveClientDB_data (db : ClientDB) : (saveClientDB db).data = fileData db := by
  have h : ("" : String).data = [] := rfl
  rw [saveClientDB, save_foldl_data, h, List.nil_append]

theorem lineData_no_newline (info : ClientInfo) (hu : '\n' ∉ info.username.data)
    (hp : '\n' ∉ info.password.data) (ha : '\n' ∉ info.ip_port.data) :
    '\n' ∉ lineData info := by
  have hne : ¬ ('\n' = '|') := by decide
  simp [lineData, hu, hp, ha, hne]

theorem split_file (db : ClientDB) (h : ∀ e ∈ db, '\n' ∉ lineData e.2) :
    splitString.loop '\n' (fileData db) [] = db.map (fun e => String.mk (lineData e.2)) := by
  induction db with
  | nil => rfl
  | cons e rest ih =>
    rw [fileData, loop_token _ _ _ _ (h e (List.mem_cons_self e rest)),
      ih (fun x hx => h x (List.mem_cons_of_mem e hx))]
    simp

theorem load_lines (db acc : ClientDB)
    (hgood : ∀ e ∈ db, e.1 = e.2.username ∧ noSeparator e.2.username ∧
      noSeparator e.2.password ∧ noSeparator e.2.ip_port ∧ e.2.ip_port ≠ "")
    (hwf : (acc.map Prod.fst ++ db.map Prod.fst).Nodup) :
    (db.map (fun e => String.mk (lineData e.2))).foldl loadLine acc =
      acc ++ db.map reloaded := by
  induction db generalizing acc with
  | nil => simp
  | cons e rest ih =>
    obtain ⟨hkey, hu, hp, ha, hne⟩ := hgood e (List.mem_cons_self e rest)
    have hline : loadLine acc (String.mk (lineData e.2)) = acc ++ [reloaded e] := by
      have habsent : acc.find e.2.username = none := by
        rw [find_eq_none_iff]
        intro hmem
        have hdis := List.disjoint_of_nodup_append hwf
        exact hdis hmem (by simp [hkey])
      unfold loadLine
      rw [split_line e.2 hu.1 hp.1 ha.1 hne]
      exact assign_of_absent _ _ _ habsent
    rw [List.map_cons, List.foldl_cons, hline, ih]
    · simp
    · exact fun x hx => hgood x (List.mem_cons_of_mem e hx)
    · have hk : (reloaded e).1 = e.1 := hkey.symm
      simpa [hk] using hwf

theorem load_save (db : ClientDB) (hwf : db.WF)
    (hgood : ∀ e ∈ db, e.1 = e.2.username ∧ noSeparator e.2.username ∧
      noSeparator e.2.password ∧ noSeparator e.2.ip_port ∧ e.2.ip_port ≠ "") :
    loadClientDB [] (saveClientDB db) = db.map reloaded := by
  have hnl : ∀ e ∈ db, '\n' ∉ lineData e.2 := fun e he =>
    lineData_no_newline e.2 (hgood e he).2.1.2 (hgood e he).2.2.1.2 (hgood e he).2.2.2.1.2
  unfold loadClientDB splitString
  rw [saveClientDB_data, split_file db hnl, load_lines db [] hgood (by simpa using hwf)]
  simp

theorem find_reloaded (db : ClientDB) (key : String)
    (hkeys : ∀ e ∈ db, e.1 = e.2.username) :
    ClientDB.find (db.map reloaded) key =
      (db.find key).map (fun info => (reloaded (key, info)).2) := by
  induction db with
  | nil => rfl
  | cons e rest ih =>
    obtain ⟨k, v⟩ := e
    have hk : k = v.username := hkeys (k, v) (List.mem_cons_self _ _)
    have ih2 := ih (fun x hx => hkeys x (List.mem_cons_of_mem _ hx))
    by_cases h : k = key
    · simp [ClientDB.find, reloaded, ← hk, h]
    · simpa [ClientDB.find, reloaded, ← hk, h] using ih2

/-- C10: for a map with pairwise distinct keys in which every record is stored under its
own username, no username, password or address contains `|` or a line break, and no
address is empty, loading the text written by `saveClientDB` into an empty map gives a
map with the same keys in which every key finds a record with the same username, password
and address (its lastHeartbeat is the clock epoch). -/
theorem save_load_round_trip (db : ClientDB) (hwf : db.WF)
    (hgood : ∀ e ∈ db, e.1 = e.2.username ∧ noSeparator e.2.username ∧
      noSeparator e.2.password ∧ noSeparator e.2.ip_port ∧ e.2.ip_port ≠ "") :
    (loadClientDB [] (saveClientDB db)).map Prod.fst = db.map Prod.fst ∧
    (loadClientDB [] (saveClientDB db)).WF ∧
    (∀ key, (loadClientDB [] (saveClientDB db)).find key = none ↔ db.find key = none) ∧
    ∀ key info, db.find key = some info →
      (loadClientDB [] (saveClientDB db)).find key =
        some ⟨info.username, info.password, info.ip_port, 0⟩ := by
  have hkeys : ∀ e ∈ db, e.1 = e.2.username := fun e he => (hgood e he).1
  have hmap : (db.map reloaded).map Prod.fst = db.map Prod.fst := by
    rw [List.map_map]
    apply List.map_congr_left
    intro e he
    exact (hkeys e he).symm
  rw [load_save db hwf hgood]
  refine ⟨hmap, ?_, ?_, ?_⟩
  · unfold ClientDB.WF
    rw [hmap]
    exact hwf
  · intro key
    rw [find_eq_none_iff, find_eq_none_iff, hmap]
  · intro key info hfind
    rw [find_reloaded db key hkeys, hfind]
    rfl

theorem save_load_round_trip_witness :
    (loadClientDB [] (saveClientDB demoServer.clientDB)).find "alice" =
      some ⟨"alice", "pw1", "1.2.3.4:9", 0⟩ :=
  (save_load_round_trip demoServer.clientDB (by decide) (by decide)).2.2.2 "alice"
    ⟨"alice", "pw1", "1.2.3.4:9", 0⟩ (by decide)

end LinkUp
